import Mathlib

/-!
Verification of the formx render/asset coordination core.

Shallow embedding of `src/renderer/assetManager.ts`, `src/renderer/renderer.ts`
(the `Renderer` class implementing `IRenderer` from `src/renderer/types.ts`),
the input controller (`createControls`), and `src/renderer/mockRenderer.ts`.

Modelling conventions:
* GPU textures are identified by natural numbers; a `Promise<Texture | null>`
  is identified by the numeric id it was allocated with, and its resolution is
  a separate `settle` step (the single-threaded event loop runs settlements
  between synchronous operations).
* JS `Map`s are total functions into `Option`, JS `Set`s are lists with
  set-flavoured use.
* Floating point quantities that the code only adds, scales and compares are
  modelled by rationals (the claims under verification never depend on
  rounding of binary floats).
* DOM / GPU side effects (canvas insertion, `texture.dispose()`,
  `requestAnimationFrame` handles) are modelled only through the state the
  renderer keeps about them (`animationId`, `listenersAttached`, cache maps).
-/

namespace Formx

/-! ## Enumerations (`src/renderer/types.ts`) -/

inductive MaterialType
  | basic
  | pbr
deriving DecidableEq, Repr

inductive FaceStyle
  | wood
  | glass
  | fur
  | metal
  | plastic
  | gold
deriving DecidableEq, Repr

inductive EnvMapQuality
  | q1k
  | q2k
  | q4k
deriving DecidableEq, Repr

inductive TransformMode
  | translate
  | rotate
  | scale
deriving DecidableEq, Repr

/-- `FaceIndex = {0..5}`. -/
abbrev FaceIndex := Fin 6

/-- `CubeFaceOptions = { allFaces: true } | { targetFace: FaceIndex }`. -/
inductive CubeFaceOptions
  | allFaces
  | targetFace (face : FaceIndex)
deriving DecidableEq, Repr

def materialTypeName : MaterialType → String
  | .basic => "basic"
  | .pbr => "pbr"

def faceStyleName : FaceStyle → String
  | .wood => "wood"
  | .glass => "glass"
  | .fur => "fur"
  | .metal => "metal"
  | .plastic => "plastic"
  | .gold => "gold"

/-! ## Materials (`assetManager.ts`) -/

/-- `MaterialConfig { roughness, metalness, color }`. -/
structure MaterialConfig where
  roughness : ℚ
  metalness : ℚ
  color : Nat
deriving DecidableEq, Repr

/-- `AssetManager.MATERIAL_CONFIGS` (assetManager.ts lines 49-56). -/
def MATERIAL_CONFIGS : FaceStyle → MaterialConfig
  | .wood => ⟨0.8, 0, 0x8B4513⟩
  | .glass => ⟨0.05, 0, 0x87CEEB⟩
  | .fur => ⟨0.9, 0, 0xD2691E⟩
  | .metal => ⟨0.1, 1, 0xC0C0C0⟩
  | .plastic => ⟨0.5, 0, 0xFF6347⟩
  | .gold => ⟨0.3, 1, 0xFFD700⟩

/-- "Basic material defaults" used for `type === 'basic'` (line 162). -/
def basicMaterialConfig : MaterialConfig := ⟨0.5, 0, 0x00aaff⟩

/-- The config `initializeMaterials` picks for a `(type, style)` pair. -/
def configFor (t : MaterialType) (s : FaceStyle) : MaterialConfig :=
  match t with
  | .pbr => MATERIAL_CONFIGS s
  | .basic => basicMaterialConfig

/-- A `THREE.MeshStandardMaterial` as far as the core reads/writes it.
`envMap`/`envMapIntensity` keep their three.js defaults on the catalogue
materials (no env map, intensity 1). -/
structure StdMaterial where
  roughness : ℚ
  metalness : ℚ
  color : Nat
  envMap : Option Nat
  envMapIntensity : ℚ
deriving DecidableEq, Repr

/-- `new THREE.MeshStandardMaterial({color, roughness, metalness})`. -/
def mkStdMaterial (c : MaterialConfig) : StdMaterial :=
  { roughness := c.roughness, metalness := c.metalness, color := c.color
    envMap := none, envMapIntensity := 1 }

/-- `getMaterialKey` (line 175-177). -/
def materialKey (t : MaterialType) (s : FaceStyle) : String :=
  materialTypeName t ++ "-" ++ faceStyleName s

def materialTypesList : List MaterialType := [.basic, .pbr]

def faceStylesList : List FaceStyle :=
  [.wood, .glass, .fur, .metal, .plastic, .gold]

/-- The 12-entry catalogue built by `initializeMaterials` (lines 153-173). -/
def initialMaterials : List (String × StdMaterial) :=
  materialTypesList.flatMap fun t =>
    faceStylesList.map fun s => (materialKey t s, mkStdMaterial (configFor t s))

/-! ## AssetManager state and operations -/

/-- `EnvMapAsset { texture, promise, isLoaded }`; the promise is identified by
the id it was allocated with. -/
structure EnvMapAsset where
  texture : Option Nat
  promiseId : Nat
  isLoaded : Bool
deriving DecidableEq, Repr

/-- The mutable fields of an `AssetManager`.  `loadLog` is verification
bookkeeping: one entry per underlying load operation started
(`loadAndProcessHDR` invocation). -/
structure AMState where
  envMaps : EnvMapQuality → Option EnvMapAsset
  materials : List (String × StdMaterial)
  amInitialized : Bool
  nextPromiseId : Nat
  loadLog : List EnvMapQuality

/-- A freshly constructed `AssetManager` (constructor, lines 58-70):
empty env-map cache, catalogue pre-instantiated. -/
def amNew : AMState :=
  { envMaps := fun _ => none, materials := initialMaterials
    amInitialized := false, nextPromiseId := 0, loadLog := [] }

/-- `getMaterial` (lines 110-113): key lookup, `null` when absent. -/
def getMaterialAM (am : AMState) (t : MaterialType) (s : FaceStyle) :
    Option StdMaterial :=
  am.materials.lookup (materialKey t s)

/-- The fate of one `HDRLoader.load` call. -/
inductive HDROutcome
  | loadError
  | processFailure
  | loaded (texture : Nat)
deriving DecidableEq, Repr

/-- `loadAndProcessHDR` (lines 205-244).  Every branch calls `resolve`: the
returned promise never rejects, so the function is total into `Option`.
`loadError` is the loader's error callback (resolve null); `processFailure`
is a throw inside the `try` (caught, resolve null); on success the WebGPU
path resolves the texture directly, the WebGL path runs PMREM — with no
`pmremGenerator` the thrown error is caught and `null` resolved.  The
PMREM render-target texture is identified with its source texture. -/
def loadAndProcessHDR (isWebGPU : Bool) (pmremGenerator : Option Unit) :
    HDROutcome → Option Nat
  | .loadError => none
  | .processFailure => none
  | .loaded t =>
      if isWebGPU then some t
      else
        match pmremGenerator with
        | none => none
        | some _ => some t

/-- `loadEnvMap` (lines 179-198): allocate the promise, store the pending
asset in the cache, record the underlying load, return the promise. -/
def loadEnvMapAM (q : EnvMapQuality) (st : AMState) : Nat × AMState :=
  let p := st.nextPromiseId
  let asset : EnvMapAsset := { texture := none, promiseId := p, isLoaded := false }
  (p, { st with
          envMaps := fun q' => if q' = q then some asset else st.envMaps q'
          nextPromiseId := p + 1
          loadLog := st.loadLog ++ [q] })

/-- `getEnvMap` (lines 87-95): return the cached promise if the tier has an
entry, otherwise start the load. -/
def getEnvMapAM (q : EnvMapQuality) (st : AMState) : Nat × AMState :=
  match st.envMaps q with
  | some a => (a.promiseId, st)
  | none => loadEnvMapAM q st

/-- The `asset.promise.then(texture => { asset.texture = texture;
asset.isLoaded = true; ... })` continuation of `loadEnvMap` firing once the
tier's load settles with `res`.  (The promise never rejects, so the `.catch`
branch is dead.)  After `dispose` the entry is gone and nothing observable
changes. -/
def settleAM (q : EnvMapQuality) (res : Option Nat) (st : AMState) : AMState :=
  match st.envMaps q with
  | some a =>
      { st with
          envMaps := fun q' =>
            if q' = q then some { a with texture := res, isLoaded := true }
            else st.envMaps q' }
  | none => st

/-- `AssetManager.dispose` (lines 115-134): dispose cached textures and
catalogue materials, clear both maps, reset the initialized flag. -/
def disposeAM (am : AMState) : AMState :=
  { am with envMaps := fun _ => none, materials := [], amInitialized := false }

/-- Awaiting the promise returned by `getEnvMap q`: if the tier already
settled, its stored value is produced immediately; a still-pending tier
settles (per the oracle `lr`) before the awaiting code resumes. -/
def awaitEnvMap (lr : EnvMapQuality → Option Nat) (q : EnvMapQuality)
    (st : AMState) : Option Nat × AMState :=
  let st1 := (getEnvMapAM q st).2
  match st1.envMaps q with
  | some a => if a.isLoaded then (a.texture, st1) else (lr q, settleAM q (lr q) st1)
  | none => (lr q, st1)

/-- `AssetManager.initialize` (lines 72-85) from a fresh manager: await the
1k load (its settlement callback runs before `initialize` resumes), kick off
2k and 4k without awaiting, set the flag. -/
def amAfterInitialize (lr : EnvMapQuality → Option Nat) : AMState :=
  let s1 := (loadEnvMapAM .q1k amNew).2
  let s2 := settleAM .q1k (lr .q1k) s1
  let s3 := (loadEnvMapAM .q2k s2).2
  let s4 := (loadEnvMapAM .q4k s3).2
  { s4 with amInitialized := true }

/-- The operations other code can interleave between two `getEnvMap` calls
in steady state: further `getEnvMap` calls and load settlements. -/
inductive AMOp
  | get (q : EnvMapQuality)
  | settle (q : EnvMapQuality) (res : Option Nat)

def runAMOp : AMOp → AMState → AMState
  | .get q, st => (getEnvMapAM q st).2
  | .settle q r, st => settleAM q r st

def runAMOps : List AMOp → AMState → AMState
  | [], st => st
  | op :: ops, st => runAMOps ops (runAMOp op st)

/-! ## Scene (`applyEnvMapToScene`, lines 97-108) -/

/-- A scene background is either a texture or a flat `THREE.Color`. -/
inductive Background
  | texture (t : Nat)
  | color (c : Nat)
deriving DecidableEq, Repr

/-- `scene.environment` / `scene.background` (a fresh `THREE.Scene` has both
null). -/
structure SceneState where
  environment : Option Nat
  background : Option Background
deriving DecidableEq, Repr

/-- `applyEnvMapToScene(texture, showBackground)`. -/
def applyEnvMapToScene (texture : Option Nat) (showBackground : Bool)
    (sc : SceneState) : SceneState :=
  match texture, showBackground with
  | some t, true => { sc with environment := some t, background := some (.texture t) }
  | some t, false => { sc with environment := some t, background := some (.color 0x1a1a1a) }
  | none, _ => { sc with environment := none, background := some (.color 0x1a1a1a) }

/-! ## Cube face materials (`cube.ts`, `updateMaterials`) -/

/-- One of the six per-face `MeshStandardMaterial` instances on the cube
mesh.  `matId` stands for the JS object identity of the material instance:
it changes exactly when the instance is replaced. -/
structure FaceMaterial where
  matId : Nat
  roughness : ℚ
  metalness : ℚ
  color : Nat
  envMap : Option Nat
  envMapIntensity : ℚ
  needsUpdate : Bool
deriving DecidableEq, Repr

/-- `createCube` (`cube.ts`): six distinct materials, each
`{color: 0x00aaff, roughness: 0.5, metalness: 0}`. -/
def createCubeMaterials : FaceIndex → FaceMaterial := fun i =>
  { matId := i.val, roughness := 0.5, metalness := 0, color := 0x00aaff
    envMap := none, envMapIntensity := 1, needsUpdate := false }

/-- The `shouldUpdate` predicate of `updateMaterials` (renderer.ts line 400):
`'allFaces' in options ? options.allFaces : options.targetFace === index`
(the `allFaces` field is the literal `true`). -/
def shouldUpdate : CubeFaceOptions → FaceIndex → Bool
  | .allFaces, _ => true
  | .targetFace f, i => f == i

/-- The in-place property copy of `updateMaterials` (lines 411-416): the
material instance (`matId`) is kept, its fields are overwritten. -/
def copyInto (m : FaceMaterial) (src : StdMaterial) : FaceMaterial :=
  { m with
      roughness := src.roughness
      metalness := src.metalness
      color := src.color
      envMap := src.envMap
      envMapIntensity := src.envMapIntensity
      needsUpdate := true }

/-- `Renderer.updateMaterials` (lines 391-419).  The `!this.cube ||
!this.assetManager` guard never fires (both are assigned in the
constructor); a missing catalogue entry returns early. -/
def updateMaterialsR (am : AMState) (t : MaterialType) (s : FaceStyle)
    (options : CubeFaceOptions) (mats : FaceIndex → FaceMaterial) :
    FaceIndex → FaceMaterial :=
  match getMaterialAM am t s with
  | none => mats
  | some src => fun i => if shouldUpdate options i then copyInto (mats i) src else mats i

/-! ## Input controller (`src/unnamed/part_005`, `createControls`) -/

/-- 3D vectors: rational coordinates. -/
abbrev Vec3 := ℚ × ℚ × ℚ

def vadd (a b : Vec3) : Vec3 := (a.1 + b.1, a.2.1 + b.2.1, a.2.2 + b.2.2)

def vsmul (k : ℚ) (a : Vec3) : Vec3 := (k * a.1, k * a.2.1, k * a.2.2)

def AUTO_ROTATE_SPEED : ℚ := 0.005

def MOVE_SPEED : ℚ := 0.1

/-- The closure state of `createControls`, plus `live`: the `Renderer`
constructor installs a stub `Controls` object whose `update`, `dispose` and
`setAutoRotate` are no-ops (`live = false`); `initialize` replaces it with
the real closure (`live = true`).  `forwardDir`/`rightDir` stand for the
camera orientation vectors the update recomputes each frame
(`getWorldDirection` / cross product): the claims never move the camera's
orientation, so they are carried as state. -/
structure ControlsState where
  live : Bool
  enabled : Bool
  isDragging : Bool
  autoRotate : Bool
  keysPressed : List String
  listenersAttached : Bool
  forwardDir : Vec3
  rightDir : Vec3
deriving DecidableEq, Repr

/-- The stub installed by the `Renderer` constructor (renderer.ts 51-57). -/
def stubControls : ControlsState :=
  { live := false, enabled := false, isDragging := false, autoRotate := false
    keysPressed := [], listenersAttached := false
    forwardDir := (0, 0, -1), rightDir := (-1, 0, 0) }

/-- The state `createControls` returns: listeners attached, enabled,
auto-rotate on.  The camera sits at `(0,0,7)` looking at the origin, so
forward is `-z` and `cross(up, forward)` is `-x`. -/
def controlsNew : ControlsState :=
  { live := true, enabled := true, isDragging := false, autoRotate := true
    keysPressed := [], listenersAttached := true
    forwardDir := (0, 0, -1), rightDir := (-1, 0, 0) }

/-- The four movement checks of `update` for one tracked key. -/
def applyKey (c : ControlsState) (pos : Vec3) (k : String) : Vec3 :=
  let p1 := if k = "w" || k = "arrowup" || k = "KeyW" then
    vadd pos (vsmul MOVE_SPEED c.forwardDir) else pos
  let p2 := if k = "s" || k = "arrowdown" || k = "KeyS" then
    vadd p1 (vsmul (-MOVE_SPEED) c.forwardDir) else p1
  let p3 := if k = "a" || k = "arrowleft" || k = "KeyA" then
    vadd p2 (vsmul MOVE_SPEED c.rightDir) else p2
  if k = "d" || k = "arrowright" || k = "KeyD" then
    vadd p3 (vsmul (-MOVE_SPEED) c.rightDir) else p3

/-- Result of `controls.update()`: the (unchanged) closure state, the new
camera position and mesh rotation, and whether `onNeedRender` fired. -/
structure ControlsUpdateResult where
  ctrl : ControlsState
  cameraPos : Vec3
  meshRot : Vec3
  needsRender : Bool
deriving DecidableEq, Repr

/-- `update` (part_005 lines 213-249): continuous key-held movement, then the
auto-rotate increment on the mesh's y rotation; `onNeedRender` fires when
either did work.  The constructor stub's `update` is `() => {}`. -/
def controlsUpdate (c : ControlsState) (cameraPos meshRot : Vec3) :
    ControlsUpdateResult :=
  if c.live = false then ⟨c, cameraPos, meshRot, false⟩
  else
    let moved := !c.keysPressed.isEmpty
    let cameraPos1 := if c.keysPressed.isEmpty then cameraPos
      else c.keysPressed.foldl (applyKey c) cameraPos
    let rotated := c.autoRotate
    let meshRot1 := if c.autoRotate then
      (meshRot.1, meshRot.2.1 + AUTO_ROTATE_SPEED, meshRot.2.2) else meshRot
    ⟨c, cameraPos1, meshRot1, moved || rotated⟩

/-- `setAutoRotate` (part_005 lines 210-212) — plain assignment; the stub's
version is a no-op. -/
def controlsSetAutoRotate (enabled : Bool) (c : ControlsState) : ControlsState :=
  if c.live then { c with autoRotate := enabled } else c

/-- `dispose` (part_005 lines 250-261) removes every listener.  The stub's
`dispose` is a no-op, and the stub never has listeners attached, so the
unconditional flag clear is extensionally the same. -/
def disposeControls (c : ControlsState) : ControlsState :=
  { c with listenersAttached := false }

/-! ## Renderer events and state (`renderer.ts`) -/

/-- Event names (`RendererEvent` in types.ts). -/
inductive RName
  | ready
  | progress
  | envMapLoaded
  | envMapError
  | cameraReset
  | error
deriving DecidableEq, Repr

/-- An emitted event with its payload (`EventData`); errors carry the
caught value by id. -/
inductive REvent
  | progress (percent : Nat) (message : String)
  | ready
  | error (message : String) (errId : Nat)
  | envMapLoaded (quality : EnvMapQuality)
  | envMapError (quality : EnvMapQuality)
  | cameraReset
deriving DecidableEq, Repr

/-- The mutable fields of the `Renderer` singleton.  The camera position and
the cube mesh transform live here: the input-controller closure and the
renderer methods mutate the same camera/mesh objects.  `nextRaf` allocates
`requestAnimationFrame` handles. -/
structure RendererState where
  isInitialized : Bool
  renderRequested : Bool
  animationId : Option Nat
  nextRaf : Nat
  currentFps : Int
  frameCount : Nat
  lastFrameTime : ℚ
  usingWebGPU : Bool
  scene : SceneState
  cubeMaterials : FaceIndex → FaceMaterial
  cameraPos : Vec3
  cameraLook : Vec3
  cameraAspect : ℚ
  cubePos : Vec3
  cubeRot : Vec3
  cubeScale : Vec3
  controls : ControlsState
  transformEnabled : Bool
  transformMode : TransformMode
  gizmoInScene : Bool
  faceLabelsVisible : Bool
  assetManager : AMState
  eventListeners : RName → List Nat
  surfaceW : ℚ
  surfaceH : ℚ

/-- The state the private constructor (renderer.ts 46-61) leaves behind:
placeholder scene/camera/cube/controls, a fresh `AssetManager`, nothing
initialized.  (The placeholder cube mesh has no face materials; the
placeholder entries here are never read before `initialize` replaces
them.) -/
def rendererNew : RendererState :=
  { isInitialized := false, renderRequested := false, animationId := none
    nextRaf := 0, currentFps := 0, frameCount := 0, lastFrameTime := 0
    usingWebGPU := false, scene := { environment := none, background := none }
    cubeMaterials := fun _ =>
      { matId := 0, roughness := 0, metalness := 0, color := 0
        envMap := none, envMapIntensity := 1, needsUpdate := false }
    cameraPos := (0, 0, 0), cameraLook := (0, 0, 0), cameraAspect := 1
    cubePos := (0, 0, 0), cubeRot := (0, 0, 0), cubeScale := (1, 1, 1)
    controls := stubControls, transformEnabled := true
    transformMode := .translate, gizmoInScene := false
    faceLabelsVisible := true, assetManager := amNew
    eventListeners := fun _ => [], surfaceW := 0, surfaceH := 0 }

/-- `requestRender` (lines 311-313). -/
def requestRender (st : RendererState) : RendererState :=
  { st with renderRequested := true }

/-- `updateFPS` (lines 315-326), at wall-clock time `now`.  (When two
measurements coincide the JS division yields Infinity; in `ℚ` division by
zero yields 0.  No claim touches that case.) -/
def updateFPSr (now : ℚ) (st : RendererState) : RendererState :=
  let fc := st.frameCount + 1
  if 30 ≤ fc then
    { st with currentFps := round ((fc * 1000 : ℚ) / (now - st.lastFrameTime))
              lastFrameTime := now, frameCount := 0 }
  else { st with frameCount := fc }

/-- What one scheduled render-loop callback does, in execution order. -/
inductive TickEvent
  | scheduleNext
  | draw
  | clearRequest
  | updateFps
  | advanceControls
deriving DecidableEq, Repr

/-- One iteration of the `loop` closure in `startRenderLoop` (lines
331-343), at wall-clock time `now`: schedule the next frame, bail out if not
initialized or no render was requested, otherwise draw, clear the flag,
update the FPS counter, then run `controls.update()` (whose `onNeedRender`
sets the request flag again). -/
def tick (now : ℚ) (st : RendererState) : RendererState × List TickEvent :=
  let st0 := { st with animationId := some st.nextRaf, nextRaf := st.nextRaf + 1 }
  if st0.isInitialized = false then (st0, [.scheduleNext])
  else if st0.renderRequested = false then (st0, [.scheduleNext])
  else
    let st1 := { st0 with renderRequested := false }
    let st2 := updateFPSr now st1
    let u := controlsUpdate st2.controls st2.cameraPos st2.cubeRot
    let st3 := { st2 with
                   controls := u.ctrl, cameraPos := u.cameraPos
                   cubeRot := u.meshRot
                   renderRequested := if u.needsRender then true else st2.renderRequested }
    (st3, [.scheduleNext, .draw, .clearRequest, .updateFps, .advanceControls])

/-- A run of consecutive render-loop callbacks at the given times. -/
def ticks : List ℚ → RendererState → RendererState × List TickEvent
  | [], st => (st, [])
  | t :: ts, st =>
      let r1 := tick t st
      let r2 := ticks ts r1.1
      (r2.1, r1.2 ++ r2.2)

/-- `startRenderLoop` (lines 328-347): no-op if already running, else record
the measurement start and run `loop()` once immediately. -/
def startRenderLoopR (now : ℚ) (st : RendererState) : RendererState :=
  match st.animationId with
  | some _ => st
  | none => (tick now { st with lastFrameTime := now }).1

/-- `stopRenderLoop` (lines 349-354). -/
def stopRenderLoopR (st : RendererState) : RendererState :=
  { st with animationId := none }

/-- `Renderer.dispose` (lines 175-199): mark uninitialized, stop the loop,
release input-controller listeners, release the `TransformControls` and the
AssetManager caches, release the GL surface (external), clear every event
subscription.  (The static `Renderer.instance = null` reset is module
state, not object state.) -/
def disposeR (st : RendererState) : RendererState :=
  { st with
      isInitialized := false
      animationId := none
      controls := disposeControls st.controls
      assetManager := disposeAM st.assetManager
      eventListeners := fun _ => [] }

/-! ## Command methods (`renderer.ts` lines 201-287) -/

/-- `loadEnvironmentMap` (lines 363-389): await the tier's env map (`lr` is
the oracle for how a still-pending load settles); a non-null result is
applied to the scene, every face material is flagged for update and
`envMapLoaded` fires; a null result only fires `envMapError`.  The internal
`try`/`catch` cannot fire: `getEnvMap`'s promise never rejects. -/
def loadEnvironmentMapR (lr : EnvMapQuality → Option Nat) (quality : EnvMapQuality)
    (showBackground : Bool) (st : RendererState) : RendererState × List REvent :=
  let r := awaitEnvMap lr quality st.assetManager
  match r.1 with
  | some t =>
      ({ st with
           assetManager := r.2
           scene := applyEnvMapToScene (some t) showBackground st.scene
           cubeMaterials := fun i => { st.cubeMaterials i with needsUpdate := true } },
       [.envMapLoaded quality])
  | none => ({ st with assetManager := r.2 }, [.envMapError quality])

/-- `setMaterial` (lines 214-218): an omitted `options` argument defaults to
`{ allFaces: true }`; update the face materials, mark a render request. -/
def setMaterialR (t : MaterialType) (s : FaceStyle)
    (options : Option CubeFaceOptions) (st : RendererState) : RendererState :=
  let updateOptions := options.getD .allFaces
  requestRender
    { st with cubeMaterials := updateMaterialsR st.assetManager t s updateOptions st.cubeMaterials }

/-- `setDebugMode` (lines 220-244): toggle gizmo/labels, flip orbit input,
force auto-rotate off when entering debug mode, mark a render request. -/
def setDebugModeR (enabled : Bool) (st : RendererState) : RendererState :=
  let st1 := { st with transformEnabled := enabled, gizmoInScene := enabled }
  let c1 := { st1.controls with enabled := !enabled }
  let c2 := if enabled then controlsSetAutoRotate false c1 else c1
  requestRender { st1 with controls := c2, faceLabelsVisible := enabled }

/-- `setTransformMode` (lines 246-251). -/
def setTransformModeR (mode : TransformMode) (st : RendererState) : RendererState :=
  requestRender { st with transformMode := mode }

/-- `setBackgroundVisible` (lines 253-256): fire-and-forget
`loadEnvironmentMap`, then mark a render request. -/
def setBackgroundVisibleR (lr : EnvMapQuality → Option Nat) (visible : Bool)
    (quality : EnvMapQuality) (st : RendererState) : RendererState × List REvent :=
  let r := loadEnvironmentMapR lr quality visible st
  (requestRender r.1, r.2)

/-- `setEnvMapQuality` (lines 258-261): same routine, other argument order. -/
def setEnvMapQualityR (lr : EnvMapQuality → Option Nat) (quality : EnvMapQuality)
    (showBackground : Bool) (st : RendererState) : RendererState × List REvent :=
  let r := loadEnvironmentMapR lr quality showBackground st
  (requestRender r.1, r.2)

/-- `setAutoRotate` (lines 263-266): delegate to the controls, then
`requestRender()` — unconditionally. -/
def setAutoRotateR (enabled : Bool) (st : RendererState) : RendererState :=
  requestRender { st with controls := controlsSetAutoRotate enabled st.controls }

/-- `resize` (lines 201-212). -/
def resizeR (width height : ℚ) (st : RendererState) : RendererState :=
  requestRender
    { st with cameraAspect := width / height, surfaceW := width, surfaceH := height }

/-- `RendererResetConfig` (types.ts lines 54-66). -/
structure ResetConfig where
  debugMode : Bool
  showBackground : Bool
  envMapQuality : EnvMapQuality
  materialType : MaterialType
  faceStyle : FaceStyle
  selectedFace : Option FaceIndex
  cameraPosition : Vec3
  cameraLookAt : Vec3
  cubePosition : Vec3
  cubeRotation : Vec3
  cubeScale : Vec3

/-- `resetToDefaults` (lines 268-287). -/
def resetToDefaultsR (lr : EnvMapQuality → Option Nat) (config : ResetConfig)
    (st : RendererState) : RendererState × List REvent :=
  let st1 := { st with
                 cameraPos := config.cameraPosition, cameraLook := config.cameraLookAt
                 cubePos := config.cubePosition, cubeRot := config.cubeRotation
                 cubeScale := config.cubeScale }
  let st2 := setDebugModeR config.debugMode st1
  let r3 := setBackgroundVisibleR lr config.showBackground config.envMapQuality st2
  let r4 := setEnvMapQualityR lr config.envMapQuality config.showBackground r3.1
  let materialOptions := match config.selectedFace with
    | none => CubeFaceOptions.allFaces
    | some f => CubeFaceOptions.targetFace f
  let st5 := setMaterialR config.materialType config.faceStyle (some materialOptions) r4.1
  let st6 := setAutoRotateR true st5
  (requestRender st6, r3.2 ++ r4.2 ++ [.cameraReset])

/-- The `IRenderer` command surface outside `initialize` (types.ts 68-90). -/
inductive Command
  | setMaterial (t : MaterialType) (s : FaceStyle) (options : Option CubeFaceOptions)
  | setDebugMode (enabled : Bool)
  | setTransformMode (mode : TransformMode)
  | setBackgroundVisible (visible : Bool) (quality : EnvMapQuality)
  | setEnvMapQuality (quality : EnvMapQuality) (showBackground : Bool)
  | setAutoRotate (enabled : Bool)
  | resize (width height : ℚ)
  | resetToDefaults (config : ResetConfig)
  | disposeCmd

/-- Each command body transcribed into `Except`: an `.error` would model an
exception crossing the facade.  No body contains a throw and every nullable
access is guarded, so every branch builds `.ok`. -/
def runCommandE (lr : EnvMapQuality → Option Nat) :
    Command → RendererState → Except Nat (RendererState × List REvent)
  | .setMaterial t s o, st => .ok (setMaterialR t s o st, [])
  | .setDebugMode b, st => .ok (setDebugModeR b st, [])
  | .setTransformMode m, st => .ok (setTransformModeR m st, [])
  | .setBackgroundVisible v q, st => .ok (setBackgroundVisibleR lr v q st)
  | .setEnvMapQuality q v, st => .ok (setEnvMapQualityR lr q v st)
  | .setAutoRotate b, st => .ok (setAutoRotateR b st, [])
  | .resize w h, st => .ok (resizeR w h st, [])
  | .resetToDefaults c, st => .ok (resetToDefaultsR lr c st)
  | .disposeCmd, st => .ok (disposeR st, [])

/-! ## `Renderer.initialize` (lines 74-173) -/

/-- `RendererConfig` (types.ts 47-50). -/
structure RendererConfig where
  debugMode : Bool
  envMapQuality : EnvMapQuality

/-- The environment one `initialize` call runs against: whether WebGPU is
available, how each tier's HDR load settles, the wall-clock time the render
loop starts at, and which stage (if any) throws, with the id of the thrown
value.  The six fallible stages are the bodies between progress emissions:
0 canvas creation, 1 scene/lights/camera setup, 2 device selection and init,
3 scene object construction, 4 AssetManager construction + `initialize`,
5 initial environment application.  Everything after (`isInitialized = true`,
`startRenderLoop`, the final emissions) contains no throwing operation. -/
structure InitEnv where
  webGPUAvailable : Bool
  loadResult : EnvMapQuality → Option Nat
  startTime : ℚ
  failAt : Option (Fin 6 × Nat)

/-- Whether stage `k` of this run throws, and with what. -/
def failsAt (env : InitEnv) (k : Nat) : Option Nat :=
  match env.failAt with
  | some je => if je.1.val = k then some je.2 else none
  | none => none

/-- The outcome of one `initialize` call: the events emitted through the
event bus, the returned promise (`.error e` models the rethrow of the caught
stage error), and the object state left behind. -/
structure InitResult where
  trace : List REvent
  result : Except Nat Unit
  state : RendererState

/-- `Renderer.initialize(container, config)`, transcribed stage by stage.
Each stage emits its `progress` event first and then does its work; a throw
anywhere is caught once at the bottom (lines 169-172), which emits `error`
and rethrows the same value.  The `await assetManager.initialize()` resumes
only after the 1k settlement callback ran; `await loadEnvironmentMap(...)`
settles the configured tier.  `startRenderLoop` runs the loop body once
synchronously before `progress 100` / `ready` are emitted, and the final
`requestRender()` leaves a render request pending. -/
def initializeR (config : RendererConfig) (env : InitEnv) (st0 : RendererState) :
    InitResult :=
  let tr0 := [REvent.progress 0 "Creating canvas..."]
  match failsAt env 0 with
  | some e => ⟨tr0 ++ [.error "Initialization failed" e], .error e, st0⟩
  | none =>
  let tr1 := tr0 ++ [REvent.progress 10 "Setting up scene..."]
  match failsAt env 1 with
  | some e => ⟨tr1 ++ [.error "Initialization failed" e], .error e, st0⟩
  | none =>
  let st1 := { st0 with
                 scene := { environment := none, background := some (.color 0x1a1a1a) }
                 cameraPos := (0, 0, 7), cameraLook := (0, 0, 0) }
  let tr2 := tr1 ++ [REvent.progress 20 "Initializing renderer..."]
  match failsAt env 2 with
  | some e => ⟨tr2 ++ [.error "Initialization failed" e], .error e, st1⟩
  | none =>
  let st2 := { st1 with usingWebGPU := env.webGPUAvailable }
  let tr3 := tr2 ++ [REvent.progress 40 "Creating scene objects..."]
  match failsAt env 3 with
  | some e => ⟨tr3 ++ [.error "Initialization failed" e], .error e, st2⟩
  | none =>
  let st3 := { st2 with
                 cubeMaterials := createCubeMaterials
                 cubeRot := (0.4, 0.4, 0)
                 controls := controlsNew
                 transformEnabled := config.debugMode
                 transformMode := .translate
                 gizmoInScene := config.debugMode
                 faceLabelsVisible := config.debugMode }
  let tr4 := tr3 ++ [REvent.progress 50 "Loading assets..."]
  match failsAt env 4 with
  | some e => ⟨tr4 ++ [.error "Initialization failed" e], .error e, st3⟩
  | none =>
  let st4 := { st3 with assetManager := amAfterInitialize env.loadResult }
  let tr5 := tr4 ++ [REvent.progress 80 "Applying environment map..."]
  match failsAt env 5 with
  | some e => ⟨tr5 ++ [.error "Initialization failed" e], .error e, st4⟩
  | none =>
  let r5 := loadEnvironmentMapR env.loadResult config.envMapQuality true st4
  let tr6 := tr5 ++ r5.2 ++ [REvent.progress 95 "Starting render loop..."]
  let st6 := { r5.1 with isInitialized := true }
  let st7 := startRenderLoopR env.startTime st6
  let tr7 := tr6 ++ [REvent.progress 100 "Ready!", REvent.ready]
  ⟨tr7, .ok (), requestRender st7⟩

/-- `MockRenderer.initialize` (mockRenderer.ts lines 34-50): fixed delays,
then the same event sequence, never failing. -/
def mockInitializeTrace : List REvent :=
  [.progress 0 "Mock: Starting...", .progress 50 "Mock: Loading...",
   .progress 100 "Mock: Ready!", .ready]

/-- The `progress.percent` values of a trace, in emission order. -/
def progressPercents (tr : List REvent) : List Nat :=
  tr.filterMap fun e => match e with
    | .progress p _ => some p
    | _ => none

/-- Every `ready` in the trace is immediately preceded by a `progress` event
carrying percent 100 (checked pairwise; a leading `ready` fails). -/
def readyPrecededBy100 (tr : List REvent) : Bool :=
  (match tr.head? with
   | some REvent.ready => false
   | _ => true) &&
  (tr.zip tr.tail).all fun p =>
    p.2 != REvent.ready ||
      (match p.1 with
       | .progress 100 _ => true
       | _ => false)

/-! ## Theorems -/

/-- One steady-state operation keeps a tier's cache entry (same promise) and
starts no further load for that tier. -/
theorem runAMOp_stable (q : EnvMapQuality) (op : AMOp) (st : AMState)
    (a : EnvMapAsset) (h : st.envMaps q = some a) :
    ∃ a', (runAMOp op st).envMaps q = some a' ∧ a'.promiseId = a.promiseId ∧
      (runAMOp op st).loadLog.count q = st.loadLog.count q := by
  cases op with
  | get q' =>
      cases hq : st.envMaps q' with
      | some b => exact ⟨a, by simp [runAMOp, getEnvMapAM, hq, h], rfl, by
          simp [runAMOp, getEnvMapAM, hq]⟩
      | none =>
          have hne : ¬q = q' := fun he => by rw [he, hq] at h; cases h
          refine ⟨a, ?_, rfl, ?_⟩
          · simp [runAMOp, getEnvMapAM, hq, loadEnvMapAM, hne, h]
          · simp [runAMOp, getEnvMapAM, hq, loadEnvMapAM, List.count_append]
            simp [List.count_singleton', hne]
  | settle q' r =>
      cases hq : st.envMaps q' with
      | none => exact ⟨a, by simp [runAMOp, settleAM, hq, h], rfl, by
          simp [runAMOp, settleAM, hq]⟩
      | some b =>
          by_cases he : q = q'
          · subst he
            have hb : b = a := by rw [hq] at h; exact (Option.some.injEq _ _ ▸ h).symm ▸ rfl
            refine ⟨{ b with texture := r, isLoaded := true }, ?_, ?_, ?_⟩
            · simp [runAMOp, settleAM, hq]
            · rw [hq] at h; cases h; rfl
            · simp [runAMOp, settleAM, hq]
          · exact ⟨a, by simp [runAMOp, settleAM, hq, he, h], rfl, by
              simp [runAMOp, settleAM, hq]⟩

/-- Steady-state stability over any interleaving of `getEnvMap` calls and
load settlements. -/
theorem runAMOps_stable (q : EnvMapQuality) (ops : List AMOp) :
    ∀ (st : AMState) (a : EnvMapAsset), st.envMaps q = some a →
      ∃ a', (runAMOps ops st).envMaps q = some a' ∧ a'.promiseId = a.promiseId ∧
        (runAMOps ops st).loadLog.count q = st.loadLog.count q := by
  induction ops with
  | nil => exact fun st a h => ⟨a, h, rfl, rfl⟩
  | cons op ops ih =>
      intro st a h
      obtain ⟨a1, h1, h2, h3⟩ := runAMOp_stable q op st a h
      obtain ⟨a2, g1, g2, g3⟩ := ih (runAMOp op st) a1 h1
      refine ⟨a2, g1, g2.trans h2, ?_⟩
      rw [show runAMOps (op :: ops) st = runAMOps ops (runAMOp op st) from rfl]
      omega

/-- `getEnvMap` on a tier that already has a cache entry returns the stored
future and leaves the state untouched. -/
theorem getEnvMapAM_cached (q : EnvMapQuality) (st : AMState) (a : EnvMapAsset)
    (h : st.envMaps q = some a) : getEnvMapAM q st = (a.promiseId, st) := by
  simp [getEnvMapAM, h]

/-- C1: for a tier with no cache entry, the first `getEnvMap` starts exactly
one load and stores its future in the cache; across any later interleaving
of `getEnvMap` calls and load settlements, `getEnvMap` on that tier returns
the same future, changes nothing, and the tier's underlying load count stays
at one — so all callers share one load and hence one resolved value. -/
theorem c1_getEnvMap_at_most_one_load_per_tier
    (q : EnvMapQuality) (st0 : AMState) (h : st0.envMaps q = none) :
    (getEnvMapAM q st0).2.envMaps q =
      some { texture := none, promiseId := (getEnvMapAM q st0).1, isLoaded := false } ∧
    (getEnvMapAM q st0).2.loadLog.count q = st0.loadLog.count q + 1 ∧
    ∀ ops : List AMOp,
      (runAMOps ops (getEnvMapAM q st0).2).loadLog.count q = st0.loadLog.count q + 1 ∧
      (getEnvMapAM q (runAMOps ops (getEnvMapAM q st0).2)).1 = (getEnvMapAM q st0).1 ∧
      (getEnvMapAM q (runAMOps ops (getEnvMapAM q st0).2)).2 =
        runAMOps ops (getEnvMapAM q st0).2 := by
  have hentry : (getEnvMapAM q st0).2.envMaps q =
      some { texture := none, promiseId := (getEnvMapAM q st0).1, isLoaded := false } := by
    simp [getEnvMapAM, h, loadEnvMapAM]
  have hcount : (getEnvMapAM q st0).2.loadLog.count q = st0.loadLog.count q + 1 := by
    simp [getEnvMapAM, h, loadEnvMapAM, List.count_append, List.count_singleton']
  refine ⟨hentry, hcount, fun ops => ?_⟩
  obtain ⟨a', g1, g2, g3⟩ := runAMOps_stable q ops _ _ hentry
  refine ⟨by omega, ?_, ?_⟩
  · rw [getEnvMapAM_cached q _ a' g1]
    exact g2
  · rw [getEnvMapAM_cached q _ a' g1]

/-- Witness for C1 at tier 2k on a freshly constructed `AssetManager`. -/
theorem c1_witness :
    (getEnvMapAM .q2k amNew).2.envMaps .q2k =
      some { texture := none, promiseId := (getEnvMapAM .q2k amNew).1, isLoaded := false } ∧
    (getEnvMapAM .q2k amNew).2.loadLog.count .q2k = amNew.loadLog.count .q2k + 1 ∧
    ∀ ops : List AMOp,
      (runAMOps ops (getEnvMapAM .q2k amNew).2).loadLog.count .q2k
        = amNew.loadLog.count .q2k + 1 ∧
      (getEnvMapAM .q2k (runAMOps ops (getEnvMapAM .q2k amNew).2)).1
        = (getEnvMapAM .q2k amNew).1 ∧
      (getEnvMapAM .q2k (runAMOps ops (getEnvMapAM .q2k amNew).2)).2
        = runAMOps ops (getEnvMapAM .q2k amNew).2 :=
  c1_getEnvMap_at_most_one_load_per_tier .q2k amNew rfl

/-- C3: tier load/decode failures never escape — both the loader error
callback and an in-processing throw make `loadAndProcessHDR` resolve `null`
(it is a total function into `Option`, i.e. the promise never rejects).
When a tier's load settles with `null`, the cache entry resolves to `null`
and is marked loaded; a later `getEnvMap` on that tier returns the same
settled future without touching the state, so no automatic retry happens.
Applying the `null` result clears the scene's environment lighting and sets
the background to the flat dark fallback color `0x1a1a1a`. -/
theorem c3_failure_resolves_null_and_degrades
    (q : EnvMapQuality) (st0 : AMState) (wg : Bool) (pm : Option Unit)
    (h : st0.envMaps q = none) :
    loadAndProcessHDR wg pm .loadError = none ∧
    loadAndProcessHDR wg pm .processFailure = none ∧
    (settleAM q none (getEnvMapAM q st0).2).envMaps q =
      some { texture := none, promiseId := (getEnvMapAM q st0).1, isLoaded := true } ∧
    getEnvMapAM q (settleAM q none (getEnvMapAM q st0).2) =
      ((getEnvMapAM q st0).1, settleAM q none (getEnvMapAM q st0).2) ∧
    (settleAM q none (getEnvMapAM q st0).2).loadLog.count q
      = st0.loadLog.count q + 1 ∧
    ∀ (b : Bool) (sc : SceneState),
      applyEnvMapToScene none b sc =
        { sc with environment := none, background := some (.color 0x1a1a1a) } := by
  have hentry : (settleAM q none (getEnvMapAM q st0).2).envMaps q =
      some { texture := none, promiseId := (getEnvMapAM q st0).1, isLoaded := true } := by
    simp [getEnvMapAM, h, loadEnvMapAM, settleAM]
  refine ⟨rfl, rfl, hentry, ?_, ?_, fun b sc => rfl⟩
  · exact getEnvMapAM_cached q _ _ hentry
  · simp [settleAM, getEnvMapAM, h, loadEnvMapAM, List.count_append,
      List.count_singleton']

/-- Witness for C3 at tier 4k on a freshly constructed `AssetManager`, on
the WebGL path with no PMREM generator. -/
theorem c3_witness :
    loadAndProcessHDR false none .loadError = none ∧
    loadAndProcessHDR false none .processFailure = none ∧
    (settleAM .q4k none (getEnvMapAM .q4k amNew).2).envMaps .q4k =
      some { texture := none, promiseId := (getEnvMapAM .q4k amNew).1, isLoaded := true } ∧
    getEnvMapAM .q4k (settleAM .q4k none (getEnvMapAM .q4k amNew).2) =
      ((getEnvMapAM .q4k amNew).1, settleAM .q4k none (getEnvMapAM .q4k amNew).2) ∧
    (settleAM .q4k none (getEnvMapAM .q4k amNew).2).loadLog.count .q4k
      = amNew.loadLog.count .q4k + 1 ∧
    ∀ (b : Bool) (sc : SceneState),
      applyEnvMapToScene none b sc =
        { sc with environment := none, background := some (.color 0x1a1a1a) } :=
  c3_failure_resolves_null_and_degrades .q4k amNew false none rfl

/-- On an `AssetManager` whose catalogue is the constructor-built one,
`getMaterial` finds every `(type, style)` combination. -/
theorem getMaterialAM_total (am : AMState) (h : am.materials = initialMaterials)
    (t : MaterialType) (s : FaceStyle) :
    getMaterialAM am t s = some (mkStdMaterial (configFor t s)) := by
  unfold getMaterialAM
  rw [h]
  cases t <;> cases s <;> rfl

/-- C4: `setMaterial(type, style, {targetFace: f})` copies the preset's
roughness/metalness/color onto face `f` only, leaving the other five faces
untouched; `{allFaces: true}` applies the identical copy to all six; in
both cases every face keeps its material instance (`matId`), only fields
are overwritten. -/
theorem c4_face_targeting
    (t : MaterialType) (s : FaceStyle) (f : FaceIndex) (am : AMState)
    (mats : FaceIndex → FaceMaterial) (ham : am.materials = initialMaterials) :
    (∀ j, j ≠ f → updateMaterialsR am t s (.targetFace f) mats j = mats j) ∧
    (updateMaterialsR am t s (.targetFace f) mats f).roughness = (configFor t s).roughness ∧
    (updateMaterialsR am t s (.targetFace f) mats f).metalness = (configFor t s).metalness ∧
    (updateMaterialsR am t s (.targetFace f) mats f).color = (configFor t s).color ∧
    (∀ j, updateMaterialsR am t s .allFaces mats j
        = copyInto (mats j) (mkStdMaterial (configFor t s))) ∧
    (∀ j, (updateMaterialsR am t s (.targetFace f) mats j).matId = (mats j).matId) ∧
    (∀ j, (updateMaterialsR am t s .allFaces mats j).matId = (mats j).matId) := by
  have hg : getMaterialAM am t s = some (mkStdMaterial (configFor t s)) :=
    getMaterialAM_total am ham t s
  refine ⟨?_, ?_, ?_, ?_, ?_, ?_, ?_⟩
  · intro j hj
    simp [updateMaterialsR, hg, shouldUpdate, beq_iff_eq, Ne.symm hj]
  · simp [updateMaterialsR, hg, shouldUpdate, copyInto, mkStdMaterial]
  · simp [updateMaterialsR, hg, shouldUpdate, copyInto, mkStdMaterial]
  · simp [updateMaterialsR, hg, shouldUpdate, copyInto, mkStdMaterial]
  · intro j
    simp [updateMaterialsR, hg, shouldUpdate]
  · intro j
    by_cases hj : f = j <;> simp [updateMaterialsR, hg, shouldUpdate, hj, copyInto]
  · intro j
    simp [updateMaterialsR, hg, shouldUpdate, copyInto]

/-- Witness for C4: `setMaterial('pbr','metal',{targetFace:3})` and
`{allFaces:true}` on the freshly created cube materials. -/
theorem c4_witness :
    (∀ j, j ≠ (3 : FaceIndex) →
      updateMaterialsR amNew .pbr .metal (.targetFace 3) createCubeMaterials j
        = createCubeMaterials j) ∧
    (updateMaterialsR amNew .pbr .metal (.targetFace 3) createCubeMaterials 3).roughness
      = (configFor .pbr .metal).roughness ∧
    (updateMaterialsR amNew .pbr .metal (.targetFace 3) createCubeMaterials 3).metalness
      = (configFor .pbr .metal).metalness ∧
    (updateMaterialsR amNew .pbr .metal (.targetFace 3) createCubeMaterials 3).color
      = (configFor .pbr .metal).color ∧
    (∀ j, updateMaterialsR amNew .pbr .metal .allFaces createCubeMaterials j
        = copyInto (createCubeMaterials j) (mkStdMaterial (configFor .pbr .metal))) ∧
    (∀ j, (updateMaterialsR amNew .pbr .metal (.targetFace 3) createCubeMaterials j).matId
        = (createCubeMaterials j).matId) ∧
    (∀ j, (updateMaterialsR amNew .pbr .metal .allFaces createCubeMaterials j).matId
        = (createCubeMaterials j).matId) :=
  c4_face_targeting .pbr .metal 3 amNew createCubeMaterials rfl

/-- C10: `setMaterial(type, style)` with the options argument omitted is
exactly `setMaterial(type, style, {allFaces: true})`, and (with the
constructor-built catalogue in place) every one of the six face materials
receives the preset's parameters. -/
theorem c10_setMaterial_defaults_to_allFaces
    (t : MaterialType) (s : FaceStyle) (st : RendererState)
    (h : st.assetManager.materials = initialMaterials) :
    setMaterialR t s none st = setMaterialR t s (some .allFaces) st ∧
    ∀ j, (setMaterialR t s none st).cubeMaterials j
        = copyInto (st.cubeMaterials j) (mkStdMaterial (configFor t s)) := by
  refine ⟨rfl, fun j => ?_⟩
  simp [setMaterialR, requestRender, updateMaterialsR,
    getMaterialAM_total st.assetManager h t s, shouldUpdate]

/-- Witness for C10 on a freshly constructed renderer. -/
theorem c10_witness :
    setMaterialR .basic .wood none rendererNew
      = setMaterialR .basic .wood (some .allFaces) rendererNew ∧
    ∀ j, (setMaterialR .basic .wood none rendererNew).cubeMaterials j
        = copyInto (rendererNew.cubeMaterials j) (mkStdMaterial (configFor .basic .wood)) :=
  c10_setMaterial_defaults_to_allFaces .basic .wood rendererNew rfl

/-- `updateFPS` only touches the FPS bookkeeping fields. -/
@[simp]
theorem updateFPSr_controls (now : ℚ) (st : RendererState) :
    (updateFPSr now st).controls = st.controls := by
  unfold updateFPSr
  by_cases h : 30 ≤ st.frameCount + 1 <;> simp [h]

@[simp]
theorem updateFPSr_cameraPos (now : ℚ) (st : RendererState) :
    (updateFPSr now st).cameraPos = st.cameraPos := by
  unfold updateFPSr
  by_cases h : 30 ≤ st.frameCount + 1 <;> simp [h]

@[simp]
theorem updateFPSr_cubeRot (now : ℚ) (st : RendererState) :
    (updateFPSr now st).cubeRot = st.cubeRot := by
  unfold updateFPSr
  by_cases h : 30 ≤ st.frameCount + 1 <;> simp [h]

@[simp]
theorem updateFPSr_renderRequested (now : ℚ) (st : RendererState) :
    (updateFPSr now st).renderRequested = st.renderRequested := by
  unfold updateFPSr
  by_cases h : 30 ≤ st.frameCount + 1 <;> simp [h]

/-- C8: `dispose()` is idempotent and needs no prior `initialize` (it is a
total function on every renderer state, the freshly constructed one
included); afterwards no render-loop callback remains scheduled, the
input-controller listeners are detached, the AssetManager caches are empty
and every event subscription is gone. -/
theorem c8_dispose_idempotent (st : RendererState) :
    disposeR (disposeR st) = disposeR st ∧
    (disposeR st).animationId = none ∧
    (disposeR st).isInitialized = false ∧
    (disposeR st).controls.listenersAttached = false ∧
    (disposeR st).assetManager.envMaps = (fun _ => none) ∧
    (disposeR st).assetManager.materials = [] ∧
    (disposeR st).eventListeners = (fun _ => []) :=
  ⟨rfl, rfl, rfl, rfl, rfl, rfl, rfl⟩

/-- The configuration and environment of one successful `initialize` run:
WebGPU available, every tier's HDR load succeeding, no stage throwing. -/
def initCfg : RendererConfig := { debugMode := false, envMapQuality := .q1k }

def initOkEnv : InitEnv :=
  { webGPUAvailable := true, loadResult := fun _ => some 1
    startTime := 0, failAt := none }

/-- The renderer state right after `initialize` resolves on `initOkEnv`:
initialized, an initial render request pending, auto-rotate on. -/
def postInitState : RendererState := (initializeR initCfg initOkEnv rendererNew).state

/-- A reachable quiescent state: after `initialize`, turn auto-rotate off
and let one tick consume the pending initial render request. -/
def quiescentState : RendererState := (tick 1 (setAutoRotateR false postInitState)).1

/-- C7 counterexample: in the (reachable) quiescent state auto-rotate is
already off and no render is requested, yet `setAutoRotate(false)` — a call
that changes no state — still marks a render request, contradicting the
claim that the pending-request flag is left unchanged when the auto-rotate
state does not change. -/
theorem c7_counterexample :
    quiescentState.controls.autoRotate = false ∧
    quiescentState.renderRequested = false ∧
    (setAutoRotateR false quiescentState).controls.autoRotate = false ∧
    (setAutoRotateR false quiescentState).renderRequested = true := by
  refine ⟨?_, ?_, ?_, ?_⟩ <;> rfl

/-- C7 (amended): `setAutoRotate(enabled)` delegates `enabled` to the
InputController and marks a render request unconditionally, whether or not
the auto-rotate state changed. -/
theorem c7_setAutoRotate_always_requests
    (enabled : Bool) (st : RendererState) (h : st.controls.live = true) :
    (setAutoRotateR enabled st).controls.autoRotate = enabled ∧
    (setAutoRotateR enabled st).renderRequested = true := by
  simp [setAutoRotateR, requestRender, controlsSetAutoRotate, h]

/-- Witness for the amended C7 at the post-initialize state. -/
theorem c7_witness :
    (setAutoRotateR true postInitState).controls.autoRotate = true ∧
    (setAutoRotateR true postInitState).renderRequested = true :=
  c7_setAutoRotate_always_requests true postInitState rfl

/-- A render-loop callback with no pending render request only reschedules
itself: no draw, no FPS update, no controller advance. -/
theorem tick_no_request (now : ℚ) (st : RendererState)
    (h : st.renderRequested = false) :
    tick now st =
      ({ st with animationId := some st.nextRaf, nextRaf := st.nextRaf + 1 },
       [.scheduleNext]) := by
  unfold tick
  cases hI : st.isInitialized <;> simp [h, hI]

/-- C2 counterexample: at the post-initialize state (render request
pending), the tick's draw call happens strictly before the InputController
advance — the claim's "advances the InputController before issuing the draw
call" is false on this input. -/
theorem c2_counterexample :
    (tick 1000 postInitState).2 =
      [.scheduleNext, .draw, .clearRequest, .updateFps, .advanceControls] ∧
    (tick 1000 postInitState).2.indexOf TickEvent.draw
      < (tick 1000 postInitState).2.indexOf TickEvent.advanceControls := by
  constructor
  · rfl
  · decide

/-- C2 (amended): every tick after `initialize` succeeded first schedules
the next callback; with no pending render request it does nothing else;
otherwise it issues exactly one draw call, clears the pending-request flag,
updates the FPS counter, and only then advances the InputController
(continuous key-held movement, auto-rotate increment) — whose
`onNeedRender` determines whether a request is pending afterwards. -/
theorem c2_tick_order (now : ℚ) (st : RendererState)
    (h : st.isInitialized = true) :
    (st.renderRequested = false → (tick now st).2 = [.scheduleNext]) ∧
    (st.renderRequested = true →
      (tick now st).2 =
        [.scheduleNext, .draw, .clearRequest, .updateFps, .advanceControls] ∧
      (tick now st).2.count TickEvent.draw = 1 ∧
      (tick now st).1.renderRequested
        = (controlsUpdate st.controls st.cameraPos st.cubeRot).needsRender ∧
      (tick now st).1.controls
        = (controlsUpdate st.controls st.cameraPos st.cubeRot).ctrl ∧
      (tick now st).1.cameraPos
        = (controlsUpdate st.controls st.cameraPos st.cubeRot).cameraPos ∧
      (tick now st).1.cubeRot
        = (controlsUpdate st.controls st.cameraPos st.cubeRot).meshRot) := by
  constructor
  · intro h2
    rw [tick_no_request now st h2]
  · intro h2
    unfold tick
    simp [h, h2]

/-- Witness for the amended C2 at the post-initialize state (request
pending) and at the quiescent state (no request). -/
theorem c2_witness :
    ((postInitState.renderRequested = false → (tick 1000 postInitState).2 = [.scheduleNext]) ∧
     (postInitState.renderRequested = true →
       (tick 1000 postInitState).2 =
         [.scheduleNext, .draw, .clearRequest, .updateFps, .advanceControls] ∧
       (tick 1000 postInitState).2.count TickEvent.draw = 1 ∧
       (tick 1000 postInitState).1.renderRequested
         = (controlsUpdate postInitState.controls postInitState.cameraPos
             postInitState.cubeRot).needsRender ∧
       (tick 1000 postInitState).1.controls
         = (controlsUpdate postInitState.controls postInitState.cameraPos
             postInitState.cubeRot).ctrl ∧
       (tick 1000 postInitState).1.cameraPos
         = (controlsUpdate postInitState.controls postInitState.cameraPos
             postInitState.cubeRot).cameraPos ∧
       (tick 1000 postInitState).1.cubeRot
         = (controlsUpdate postInitState.controls postInitState.cameraPos
             postInitState.cubeRot).meshRot)) ∧
    postInitState.renderRequested = true :=
  ⟨c2_tick_order 1000 postInitState rfl, rfl⟩

/-- C6 (amended): a render-loop tick with no pending render request never
draws, so from any state with the request flag clear (e.g. the quiescent
state after auto-rotate is turned off and the pending request is consumed)
the draw count over any number of ticks is 0.  This is the render-on-demand
property; it does not hold right after `initialize`, which leaves a render
request pending and auto-rotate on (see the counterexample). -/
theorem c6_no_request_no_draws (tms : List ℚ) (st : RendererState)
    (h : st.renderRequested = false) :
    (ticks tms st).2.count TickEvent.draw = 0 := by
  induction tms generalizing st with
  | nil => rfl
  | cons t ts ih =>
      show ((tick t st).2 ++ (ticks ts (tick t st).1).2).count TickEvent.draw = 0
      rw [tick_no_request t st h]
      simpa using
        ih { st with animationId := some st.nextRaf, nextRaf := st.nextRaf + 1 } h

/-- C6 counterexample: from the actual post-initialize state (no commands
issued), 10 consecutive ticks perform 10 draw calls, not 0 — `initialize`
leaves an initial render request pending and auto-rotate on, and each
tick's controller advance requests the next frame. -/
theorem c6_counterexample :
    (ticks [1, 2, 3, 4, 5, 6, 7, 8, 9, 10] postInitState).2.count TickEvent.draw = 10 ∧
    (ticks [1, 2, 3, 4, 5, 6, 7, 8, 9, 10] postInitState).2.count TickEvent.draw ≠ 0 := by
  constructor
  · rfl
  · decide

/-- Witness for the amended C6 at the quiescent state. -/
theorem c6_witness :
    (ticks [1, 2, 3] quiescentState).2.count TickEvent.draw = 0 :=
  c6_no_request_no_draws [1, 2, 3] quiescentState rfl

/-- A successful `initialize` emits exactly the progress ladder
0/10/20/40/50/80, one environment event for the configured tier, progress
95, progress 100 and then `ready`. -/
theorem initializeR_trace_ok (cfg : RendererConfig) (env : InitEnv)
    (st0 : RendererState) (h : env.failAt = none) :
    ∃ ev, (ev = REvent.envMapLoaded cfg.envMapQuality ∨
           ev = REvent.envMapError cfg.envMapQuality) ∧
      (initializeR cfg env st0).trace =
        [REvent.progress 0 "Creating canvas...",
         .progress 10 "Setting up scene...",
         .progress 20 "Initializing renderer...",
         .progress 40 "Creating scene objects...",
         .progress 50 "Loading assets...",
         .progress 80 "Applying environment map...",
         ev,
         .progress 95 "Starting render loop...",
         .progress 100 "Ready!",
         .ready] := by
  unfold initializeR
  simp only [failsAt, h]
  rcases hr : (awaitEnvMap env.loadResult cfg.envMapQuality
      (amAfterInitialize env.loadResult)).1 with _ | t
  · exact ⟨REvent.envMapError cfg.envMapQuality, Or.inr rfl,
      by simp [loadEnvironmentMapR, hr]⟩
  · exact ⟨REvent.envMapLoaded cfg.envMapQuality, Or.inl rfl,
      by simp [loadEnvironmentMapR, hr]⟩

/-- C5: within any one `initialize` call (real renderer, failing or not,
and the mock renderer) the emitted `progress.percent` sequence is
non-decreasing; on completion the final progress event carries 100, and
every `ready` is emitted immediately after that `progress 100` event. -/
theorem c5_progress_monotone :
    (∀ (cfg : RendererConfig) (env : InitEnv) (st0 : RendererState),
        (progressPercents (initializeR cfg env st0).trace).Chain' (· ≤ ·)) ∧
    (∀ (cfg : RendererConfig) (env : InitEnv) (st0 : RendererState),
        env.failAt = none →
        (progressPercents (initializeR cfg env st0).trace).getLast? = some 100 ∧
        readyPrecededBy100 (initializeR cfg env st0).trace = true ∧
        REvent.ready ∈ (initializeR cfg env st0).trace) ∧
    (progressPercents mockInitializeTrace).Chain' (· ≤ ·) ∧
    (progressPercents mockInitializeTrace).getLast? = some 100 ∧
    readyPrecededBy100 mockInitializeTrace = true ∧
    REvent.ready ∈ mockInitializeTrace := by
  refine ⟨?_, ?_, ?_, by decide, by decide, by decide⟩
  · intro cfg env st0
    rcases hf : env.failAt with _ | je
    · obtain ⟨ev, hev, htr⟩ := initializeR_trace_ok cfg env st0 hf
      rw [htr]
      rcases hev with h' | h' <;> subst h' <;>
        simp [progressPercents, List.chain'_cons]
    · obtain ⟨j, e⟩ := je
      fin_cases j <;>
        (simp only [initializeR, failsAt, hf] ;
         simp [progressPercents, List.chain'_cons])
  · intro cfg env st0 h
    obtain ⟨ev, hev, htr⟩ := initializeR_trace_ok cfg env st0 h
    rw [htr]
    rcases hev with h' | h' <;> subst h' <;> exact ⟨rfl, rfl, by simp⟩
  · simp [mockInitializeTrace, progressPercents, List.chain'_cons]

/-- Witness for C5's universally quantified parts: the concrete successful
initialize run. -/
theorem c5_witness :
    (progressPercents (initializeR initCfg initOkEnv rendererNew).trace).Chain' (· ≤ ·) ∧
    ((progressPercents (initializeR initCfg initOkEnv rendererNew).trace).getLast?
       = some 100 ∧
     readyPrecededBy100 (initializeR initCfg initOkEnv rendererNew).trace = true ∧
     REvent.ready ∈ (initializeR initCfg initOkEnv rendererNew).trace) :=
  ⟨c5_progress_monotone.1 initCfg initOkEnv rendererNew,
   c5_progress_monotone.2.1 initCfg initOkEnv rendererNew rfl⟩

/-- C9: if any fallible stage of `Renderer.initialize` throws `e`, then
`initialize` emits an `error` event (as the last emitted event) carrying
that same `e`, rejects with the same `e`, and leaves the object non-Ready;
and no command method other than `initialize` can let an exception cross
the facade — every command body translates to `.ok` on all inputs. -/
theorem c9_initialize_error_propagation
    (cfg : RendererConfig) (env : InitEnv) (st0 : RendererState)
    (j : Fin 6) (e : Nat) (hf : env.failAt = some (j, e))
    (h0 : st0.isInitialized = false) :
    (initializeR cfg env st0).result = .error e ∧
    (initializeR cfg env st0).trace.getLast?
      = some (.error "Initialization failed" e) ∧
    (initializeR cfg env st0).state.isInitialized = false ∧
    ∀ (lr : EnvMapQuality → Option Nat) (c : Command) (st : RendererState),
      ∃ out, runCommandE lr c st = .ok out := by
  have hcmd : ∀ (lr : EnvMapQuality → Option Nat) (c : Command) (st : RendererState),
      ∃ out, runCommandE lr c st = .ok out := by
    intro lr c st
    cases c <;> exact ⟨_, rfl⟩
  fin_cases j <;>
    exact ⟨by simp +decide [initializeR, failsAt, hf],
      by simp +decide [initializeR, failsAt, hf, List.getLast?_cons_cons],
      by simp +decide [initializeR, failsAt, hf, h0], hcmd⟩

/-- A run whose device-selection stage (stage 2) throws error 77. -/
def initFailEnv : InitEnv :=
  { webGPUAvailable := true, loadResult := fun _ => some 1
    startTime := 0, failAt := some (2, 77) }

/-- Witness for C9 on the concrete failing run. -/
theorem c9_witness :
    (initializeR initCfg initFailEnv rendererNew).result = .error 77 ∧
    (initializeR initCfg initFailEnv rendererNew).trace.getLast?
      = some (.error "Initialization failed" 77) ∧
    (initializeR initCfg initFailEnv rendererNew).state.isInitialized = false ∧
    ∀ (lr : EnvMapQuality → Option Nat) (c : Command) (st : RendererState),
      ∃ out, runCommandE lr c st = .ok out :=
  c9_initialize_error_propagation initCfg initFailEnv rendererNew 2 77 rfl rfl

end Formx
